import Mathlib

/-!
Shallow embedding of the spotify-api.js user client (`UserClient`, in
src/unnamed/part_000) and the `Artist` entity (src/src/structures/Artist.ts).

JavaScript values are modelled field by field: a property that may be absent
becomes an `Option`; a raw JSON object whose internals the code never reads
becomes an association list of strings.  The asynchronous HTTP layer is an
explicit argument: each method receives the decoded response (or a rejection)
of the single request it performs, and request construction is embedded as a
separate pure function per method.  Fallible constructors and methods return
`Option` or `Except`.
-/

/-- A raw JSON object whose internals the code never inspects, such as
`external_urls`.  Modelled as an association list. -/
abbrev RawObject : Type := List (String × String)

/-- Modelled from the spec: the `Image` shape from Types.ts (not included
under src); a display attribute carrying a url. -/
structure Image where
  url : String
deriving DecidableEq, Repr

/-- The `followers` sub-object of a raw record: `data.followers.total`. -/
structure FollowersObj where
  total : Nat
deriving DecidableEq, Repr

/-- JavaScript truthy-or on an optional string: `v || d` returns `d` when `v`
is `undefined` or the empty string (the only falsy string). -/
def jsOrStr (v : Option String) (d : String) : String :=
  match v with
  | none => d
  | some s => if s = "" then d else s

/-- The typed error raised by the library: `UnexpectedError` wrapping the
cause (src/Errors.ts). -/
inductive SpotifyError where
  | unexpectedError : SpotifyError
deriving DecidableEq, Repr

/-- Modelled from the spec: `handleError` (src/Errors.ts, not included under
src): depending on the process-wide throw-on-error configuration it either
re-raises the typed `UnexpectedError` or returns no value (undefined). -/
def handleError (throwOnError : Bool) {α : Type} : Except SpotifyError (Option α) :=
  if throwOnError then .error .unexpectedError else .ok none

/-- The catch-clause pattern `return handleError(e) || fallback` used by every
guarded method of the user client. -/
def catchClause (throwOnError : Bool) {α : Type} (fallback : α) : Except SpotifyError α :=
  match handleError throwOnError with
  | .error e => .error e
  | .ok v => .ok (v.getD fallback)

/-- The paging envelope shape: both the raw paging JSON the API returns and
the `Paging<T>` envelope the client rebuilds from it. -/
structure Paging (α : Type) where
  limit : Nat
  offset : Nat
  total : Nat
  items : List α
deriving DecidableEq, Repr

/-- A raw artist record as decoded from JSON: the fields the `Artist`
constructor reads, each optional when the API may omit it. -/
structure RawArtist where
  external_urls : RawObject
  href : String
  id : String
  name : String
  type : String
  uri : String
  images : Option (List Image)
  popularity : Option Int
  followers : Option FollowersObj
  genres : Option String
deriving DecidableEq, Repr

/-- The `Artist` entity (src/src/structures/Artist.ts): the raw record plus
the fields the constructor copies onto the instance. -/
structure Artist where
  data : RawArtist
  externalUrls : RawObject
  href : String
  id : String
  name : String
  type : String
  uri : String
  images : List Image
  simplified : Bool
  totalFollowers : Option Nat
  genres : Option String
  popularity : Option Int
deriving DecidableEq, Repr

/-- The `Artist` constructor.  Copies the common fields, defaults `images` to
`[]` when absent, and branches on presence of the `popularity` key: when
present it sets `simplified := false` and populates the full-only fields,
reading `data.followers.total` — which in JavaScript throws a TypeError when
`followers` is absent, modelled here as `none`. -/
def Artist.make (data : RawArtist) : Option Artist :=
  match data.popularity with
  | none =>
    some { data := data, externalUrls := data.external_urls, href := data.href,
           id := data.id, name := data.name, type := data.type, uri := data.uri,
           images := data.images.getD [], simplified := true,
           totalFollowers := none, genres := none, popularity := none }
  | some p =>
    match data.followers with
    | none => none
    | some f =>
      some { data := data, externalUrls := data.external_urls, href := data.href,
             id := data.id, name := data.name, type := data.type, uri := data.uri,
             images := data.images.getD [], simplified := false,
             totalFollowers := some f.total, genres := data.genres,
             popularity := some p }

/-- Modelled from the spec: `client.artists.get` (the artists manager, not
included under src) fetches the record for the given id and constructs a
fresh `Artist` from it (the single-entity getter of the resource client). -/
def artistsGet (oracle : String → Option RawArtist) (id : String) : Option Artist :=
  (oracle id).bind Artist.make

/-- `Artist.fetch` (src/src/structures/Artist.ts lines 68-70): the body is
`return await this.client.artists.get(this.id)`.  The first component is the
returned value; the second is the entity after the call — unchanged, since
the body assigns nothing to `this`. -/
def Artist.fetch (oracle : String → Option RawArtist) (a : Artist) :
    Option Artist × Artist :=
  (artistsGet oracle a.id, a)

/-- A value of the body JSON of a request: the only body the user client ever
sends is `followPlaylist`, whose single field is a boolean. -/
inductive JVal where
  | jbool : Bool → JVal
  | jstr : String → JVal
deriving DecidableEq, Repr

/-- The single HTTP request a user-client method hands to the shared HTTP
utility: method, path, query parameters, optional JSON body, headers. -/
structure Request where
  method : String
  path : String
  params : List (String × String)
  body : Option (List (String × JVal))
  headers : List (String × String)
deriving DecidableEq, Repr

/-- The decoded JSON of `GET /me` as `UserClient.info` consumes it:
`display_name`, `id`, `external_urls`, `followers.total`, `href`, `images`
and `uri` are read directly; `country`, `email` and `product` are defaulted
through `|| "unknown"` and so may be absent. -/
structure MeData where
  display_name : String
  country : Option String
  id : String
  email : Option String
  external_urls : RawObject
  followers : FollowersObj
  href : String
  images : List Image
  product : Option String
  uri : String
deriving DecidableEq, Repr

/-- The `UserClient` profile-cache fields (src/unnamed/part_000 lines
15-24). -/
structure UserClient where
  name : String
  country : String
  email : String
  externalUrls : RawObject
  totalFollowers : Nat
  href : String
  id : String
  images : List Image
  product : String
  uri : String
deriving DecidableEq, Repr

/-- The `UserClient` constructor (lines 35-50): every profile field starts at
its fixed default. -/
def UserClient.new : UserClient :=
  { name := "", country := "", email := "unknown", externalUrls := [],
    totalFollowers := 0, product := "unknown", images := [], uri := "",
    id := "", href := "" }

/-- `UserClient.info` (lines 57-78): on a successful `GET /me` it overwrites
every profile field from the payload (with `|| "unknown"` defaults for
country, email and product) and returns `this`; any error in the try block is
caught and rethrown as `UnexpectedError`, without consulting `handleError`.
First component: the returned value (or the raised error); second component:
the client state after the call. -/
def UserClient.info (u : UserClient) (resp : Except Unit MeData) :
    Except SpotifyError UserClient × UserClient :=
  match resp with
  | .error _ => (.error .unexpectedError, u)
  | .ok d =>
    let u2 : UserClient :=
      { name := d.display_name, country := jsOrStr d.country "unknown",
        id := d.id, email := jsOrStr d.email "unknown",
        externalUrls := d.external_urls, totalFollowers := d.followers.total,
        href := d.href, images := d.images,
        product := jsOrStr d.product "unknown", uri := d.uri }
    (.ok u2, u2)

/-- `UserClient.getTopTracks` (lines 86-106): on success, rebuild the paging
envelope with raw items mapped through the Track constructor; on failure,
`handleError(e) || zero envelope`. -/
def UserClient.getTopTracks (cfg : Bool) (u : UserClient)
    (resp : Except Unit (Paging RawObject)) :
    Except SpotifyError (Paging RawObject) × UserClient :=
  (match resp with
   | .ok tracks =>
     .ok { limit := tracks.limit, offset := tracks.offset,
           total := tracks.total, items := tracks.items }
   | .error _ =>
     catchClause cfg { limit := 0, offset := 0, total := 0, items := [] }, u)

/-- `UserClient.getTopArtists` (lines 114-134): like `getTopTracks` but items
are mapped through the Artist constructor, which can itself throw inside the
try block (see `Artist.make`); a throw during mapping reaches the same catch
clause. -/
def UserClient.getTopArtists (cfg : Bool) (u : UserClient)
    (resp : Except Unit (Paging RawArtist)) :
    Except SpotifyError (Paging Artist) × UserClient :=
  (match resp with
   | .ok artists =>
     match artists.items.mapM Artist.make with
     | some items =>
       .ok { limit := artists.limit, offset := artists.offset,
             total := artists.total, items := items }
     | none =>
       catchClause cfg { limit := 0, offset := 0, total := 0, items := [] }
   | .error _ =>
     catchClause cfg { limit := 0, offset := 0, total := 0, items := [] }, u)

/-- Options of `followPlaylist`: `{ public?: boolean }`. -/
structure FollowPlaylistOptions where
  publicFlag : Option Bool
deriving DecidableEq, Repr

/-- The request `UserClient.followPlaylist` builds (lines 143-156): a PUT to
`/playlists/ID/followers` with JSON body `public: options.public || true`.
The omitted-options default is `{ public: true }`; JavaScript `x || true`
treats both `false` and `undefined` as falsy, so the body field is `true`
for every input. -/
def followPlaylist_request (id : String) (options : Option FollowPlaylistOptions) :
    Request :=
  let opts := options.getD { publicFlag := some true }
  { method := "PUT", path := "/playlists/" ++ id ++ "/followers",
    params := [], headers := [("Content-Type", "application/json")],
    body := some [("public", JVal.jbool ((opts.publicFlag.getD false) || true))] }

/-- `UserClient.followPlaylist` (lines 143-163): awaits the PUT, returns
`true` on success, `handleError(e) || false` on failure. -/
def UserClient.followPlaylist (cfg : Bool) (u : UserClient) (_id : String)
    (_options : Option FollowPlaylistOptions) (resp : Except Unit Unit) :
    Except SpotifyError Bool × UserClient :=
  (match resp with
   | .ok _ => .ok true
   | .error _ => catchClause cfg false, u)

/-- `UserClient.unfollowPlaylist` (lines 171-180): DELETE on the followers
endpoint, `true` on success, `handleError(e) || false` on failure. -/
def UserClient.unfollowPlaylist (cfg : Bool) (u : UserClient) (_id : String)
    (resp : Except Unit Unit) : Except SpotifyError Bool × UserClient :=
  (match resp with
   | .ok _ => .ok true
   | .error _ => catchClause cfg false, u)

/-- `UserClient.followsPlaylist` (lines 188-190): no try block; it delegates
to `client.playlists.userFollows(id, this.id)` (the playlists manager, whose
result is modelled as the argument) and returns element 0 of that boolean
array, `|| false` when absent.  An error from the delegate propagates
unchanged. -/
def UserClient.followsPlaylist (u : UserClient) (_id : String)
    (userFollowsResp : Except SpotifyError (List Bool)) :
    Except SpotifyError Bool × UserClient :=
  (userFollowsResp.map (fun l => l.headD false), u)

/-- `UserClient.getFollowingArtists` (lines 198-226): reads the `artists`
paging object off the response, maps items through the Artist constructor;
failure falls to `handleError(e) || zero envelope`. -/
def UserClient.getFollowingArtists (cfg : Bool) (u : UserClient)
    (resp : Except Unit (Paging RawArtist)) :
    Except SpotifyError (Paging Artist) × UserClient :=
  (match resp with
   | .ok artists =>
     match artists.items.mapM Artist.make with
     | some items =>
       .ok { limit := artists.limit, offset := artists.offset,
             total := artists.total, items := items }
     | none =>
       catchClause cfg { limit := 0, offset := 0, total := 0, items := [] }
   | .error _ =>
     catchClause cfg { limit := 0, offset := 0, total := 0, items := [] }, u)

/-- JavaScript `Array.join(",")` on the rest-parameter id list. -/
def joinComma (ids : List String) : String := String.intercalate "," ids

/-- The request `UserClient.followArtists` builds (lines 237-243). -/
def followArtists_request (ids : List String) : Request :=
  { method := "PUT", path := "/me/following",
    params := [("type", "artist"), ("ids", joinComma ids)],
    body := none, headers := [] }

/-- The request `UserClient.unfollowArtists` builds (lines 261-267). -/
def unfollowArtists_request (ids : List String) : Request :=
  { method := "DELETE", path := "/me/following",
    params := [("type", "artist"), ("ids", joinComma ids)],
    body := none, headers := [] }

/-- The request `UserClient.followUsers` builds (lines 285-291). -/
def followUsers_request (ids : List String) : Request :=
  { method := "PUT", path := "/me/following",
    params := [("type", "user"), ("ids", joinComma ids)],
    body := none, headers := [] }

/-- The request `UserClient.unfollowUsers` builds (lines 309-315). -/
def unfollowUsers_request (ids : List String) : Request :=
  { method := "DELETE", path := "/me/following",
    params := [("type", "user"), ("ids", joinComma ids)],
    body := none, headers := [] }

/-- The request `UserClient.followsArtists` builds (lines 333-338): a GET,
the default method of the HTTP utility. -/
def followsArtists_request (ids : List String) : Request :=
  { method := "GET", path := "/me/following/contains",
    params := [("type", "artist"), ("ids", joinComma ids)],
    body := none, headers := [] }

/-- The request `UserClient.followsUsers` builds (lines 354-359). -/
def followsUsers_request (ids : List String) : Request :=
  { method := "GET", path := "/me/following/contains",
    params := [("type", "user"), ("ids", joinComma ids)],
    body := none, headers := [] }

/-- `UserClient.followArtists` (lines 234-250). -/
def UserClient.followArtists (cfg : Bool) (u : UserClient) (_ids : List String)
    (resp : Except Unit Unit) : Except SpotifyError Bool × UserClient :=
  (match resp with
   | .ok _ => .ok true
   | .error _ => catchClause cfg false, u)

/-- `UserClient.unfollowArtists` (lines 258-274). -/
def UserClient.unfollowArtists (cfg : Bool) (u : UserClient) (_ids : List String)
    (resp : Except Unit Unit) : Except SpotifyError Bool × UserClient :=
  (match resp with
   | .ok _ => .ok true
   | .error _ => catchClause cfg false, u)

/-- `UserClient.followUsers` (lines 282-298). -/
def UserClient.followUsers (cfg : Bool) (u : UserClient) (_ids : List String)
    (resp : Except Unit Unit) : Except SpotifyError Bool × UserClient :=
  (match resp with
   | .ok _ => .ok true
   | .error _ => catchClause cfg false, u)

/-- `UserClient.unfollowUsers` (lines 306-322). -/
def UserClient.unfollowUsers (cfg : Bool) (u : UserClient) (_ids : List String)
    (resp : Except Unit Unit) : Except SpotifyError Bool × UserClient :=
  (match resp with
   | .ok _ => .ok true
   | .error _ => catchClause cfg false, u)

/-- `UserClient.followsArtists` (lines 330-343): on success the decoded
boolean array is returned as-is; on failure `handleError(e) || []`. -/
def UserClient.followsArtists (cfg : Bool) (u : UserClient) (_ids : List String)
    (resp : Except Unit (List Bool)) :
    Except SpotifyError (List Bool) × UserClient :=
  (match resp with
   | .ok bs => .ok bs
   | .error _ => catchClause cfg [], u)

/-- `UserClient.followsUsers` (lines 351-364). -/
def UserClient.followsUsers (cfg : Bool) (u : UserClient) (_ids : List String)
    (resp : Except Unit (List Bool)) :
    Except SpotifyError (List Bool) × UserClient :=
  (match resp with
   | .ok bs => .ok bs
   | .error _ => catchClause cfg [], u)

/-- `UserClient.getAlbums` (lines 372-392): paging envelope with raw items
mapped through the Album constructor (Album.ts is not under src; the item is
kept as its raw record); failure falls to the zero envelope. -/
def UserClient.getAlbums (cfg : Bool) (u : UserClient)
    (resp : Except Unit (Paging RawObject)) :
    Except SpotifyError (Paging RawObject) × UserClient :=
  (match resp with
   | .ok data =>
     .ok { limit := data.limit, offset := data.offset,
           total := data.total, items := data.items }
   | .error _ =>
     catchClause cfg { limit := 0, offset := 0, total := 0, items := [] }, u)

/-- `UserClient.addAlbums` (lines 400-415). -/
def UserClient.addAlbums (cfg : Bool) (u : UserClient) (_ids : List String)
    (resp : Except Unit Unit) : Except SpotifyError Bool × UserClient :=
  (match resp with
   | .ok _ => .ok true
   | .error _ => catchClause cfg false, u)

/-- `UserClient.deleteAlbums` (lines 423-438). -/
def UserClient.deleteAlbums (cfg : Bool) (u : UserClient) (_ids : List String)
    (resp : Except Unit Unit) : Except SpotifyError Bool × UserClient :=
  (match resp with
   | .ok _ => .ok true
   | .error _ => catchClause cfg false, u)

/-- `UserClient.hasAlbums` (lines 446-458). -/
def UserClient.hasAlbums (cfg : Bool) (u : UserClient) (_ids : List String)
    (resp : Except Unit (List Bool)) :
    Except SpotifyError (List Bool) × UserClient :=
  (match resp with
   | .ok bs => .ok bs
   | .error _ => catchClause cfg [], u)

/-- A concrete simplified raw artist record (no `popularity` key). -/
def exRawOld : RawArtist :=
  { external_urls := [], href := "h1", id := "art1", name := "Old",
    type := "artist", uri := "spotify:artist:art1", images := none,
    popularity := none, followers := none, genres := none }

/-- The entity `Artist.make` builds from `exRawOld`. -/
def exArtistOld : Artist :=
  { data := exRawOld, externalUrls := [], href := "h1", id := "art1",
    name := "Old", type := "artist", uri := "spotify:artist:art1",
    images := [], simplified := true, totalFollowers := none,
    genres := none, popularity := none }

/-- A concrete full raw artist record (with `popularity`) for the same id,
but a different name. -/
def exRawNew : RawArtist :=
  { external_urls := [], href := "h1", id := "art1", name := "New",
    type := "artist", uri := "spotify:artist:art1", images := none,
    popularity := some 42, followers := some { total := 7 },
    genres := some "rock" }

/-- The entity `Artist.make` builds from `exRawNew`. -/
def exArtistNew : Artist :=
  { data := exRawNew, externalUrls := [], href := "h1", id := "art1",
    name := "New", type := "artist", uri := "spotify:artist:art1",
    images := [], simplified := false, totalFollowers := some 7,
    genres := some "rock", popularity := some 42 }

/-- An artists-manager oracle that answers every id with `exRawNew`. -/
def exOracle : String → Option RawArtist := fun _ => some exRawNew

/-- The `GET /me` payload of the worked example: Alice with five followers
and no `country`, `email` or `product` key. -/
def exMe : MeData :=
  { display_name := "Alice", country := none, id := "u1", email := none,
    external_urls := [], followers := { total := 5 }, href := "h",
    images := [], product := none, uri := "spotify:user:u1" }

/-- Claim C1 (code bug, evaluation at the failing input): the body built by
`followPlaylist` carries `public = true` both when the options argument is
omitted and when it is `\x7b public: false \x7d`, because the source computes
`options.public || true`, which is `true` for every operand; the claim (and
the parameter itself, documented as controlling `public`) expects
`public = false` in the second call. -/
theorem c1_followPlaylist_body_always_true :
    (followPlaylist_request "p" none).body
      = some [("public", JVal.jbool true)] ∧
    (followPlaylist_request "p" (some { publicFlag := some false })).body
      = some [("public", JVal.jbool true)] :=
  ⟨rfl, rfl⟩

/-- Claim C2 (counterexample): a concrete entity built from a record named
`Old`, refreshed against an oracle that returns a record named `New` for its
id, still carries the stale name `Old` afterwards — `fetch` returns a fresh
entity but does not replace the fields of the entity it was called on. -/
theorem c2_counterexample :
    Artist.make exRawOld = some exArtistOld ∧
    exOracle exArtistOld.id = some exRawNew ∧
    exRawNew.name = "New" ∧
    ((Artist.fetch exOracle exArtistOld).2).name = "Old" ∧
    (Artist.fetch exOracle exArtistOld).2 = exArtistOld :=
  ⟨rfl, rfl, rfl, rfl, rfl⟩

/-- Claim C2 (amended): `fetch` retrieves the record for the entity's own id
through the artists-manager getter and returns a new `Artist` constructed
from that record; the entity it was called on is left unchanged (refresh by
returned value, not in place). -/
theorem c2_fetch_returns_fresh_entity (oracle : String → Option RawArtist)
    (a : Artist) (r : RawArtist) (h : oracle a.id = some r) :
    (Artist.fetch oracle a).1 = Artist.make r ∧ (Artist.fetch oracle a).2 = a := by
  refine ⟨?_, rfl⟩
  simp [Artist.fetch, artistsGet, h]

/-- Witness for C2: the amended theorem applied at the concrete oracle and
entity. -/
theorem c2_witness :
    (Artist.fetch exOracle exArtistOld).1 = Artist.make exRawNew ∧
    (Artist.fetch exOracle exArtistOld).2 = exArtistOld :=
  c2_fetch_returns_fresh_entity exOracle exArtistOld exRawNew rfl

/-- Claim C3: presence of the `popularity` key decides the branch of the
`Artist` constructor.  With `popularity` present, any successfully
constructed entity has `simplified = false` and its full-only fields copied
from the record (in particular `followers` was present and `totalFollowers`
is its total); with `popularity` absent, construction always succeeds and
yields `simplified = true` with all three full-only fields unset. -/
theorem c3_artist_simplified_branch (d : RawArtist) :
    (∀ a, Artist.make d = some a → d.popularity.isSome →
      a.simplified = false ∧ a.popularity = d.popularity ∧
      a.genres = d.genres ∧
      ∃ f, d.followers = some f ∧ a.totalFollowers = some f.total) ∧
    (d.popularity = none →
      ∃ a, Artist.make d = some a ∧ a.simplified = true ∧
        a.totalFollowers = none ∧ a.genres = none ∧ a.popularity = none) := by
  constructor
  · intro a ha hp
    cases hpop : d.popularity with
    | none => rw [hpop] at hp; simp at hp
    | some p =>
      cases hfol : d.followers with
      | none => simp [Artist.make, hpop, hfol] at ha
      | some f =>
        simp only [Artist.make, hpop, hfol, Option.some.injEq] at ha
        subst ha
        exact ⟨rfl, by simp [hpop], rfl, f, rfl, rfl⟩
  · intro hpop
    refine ⟨{ data := d, externalUrls := d.external_urls, href := d.href,
              id := d.id, name := d.name, type := d.type, uri := d.uri,
              images := d.images.getD [], simplified := true,
              totalFollowers := none, genres := none, popularity := none },
            ?_, rfl, rfl, rfl, rfl⟩
    simp only [Artist.make, hpop]

/-- Witness for C3: the branch theorem applied at the concrete full record
`exRawNew` and the concrete simplified record `exRawOld`. -/
theorem c3_witness :
    (exArtistNew.simplified = false ∧ exArtistNew.popularity = exRawNew.popularity ∧
      exArtistNew.genres = exRawNew.genres ∧
      ∃ f, exRawNew.followers = some f ∧ exArtistNew.totalFollowers = some f.total) ∧
    (∃ a, Artist.make exRawOld = some a ∧ a.simplified = true ∧
      a.totalFollowers = none ∧ a.genres = none ∧ a.popularity = none) :=
  ⟨(c3_artist_simplified_branch exRawNew).1 exArtistNew rfl rfl,
   (c3_artist_simplified_branch exRawOld).2 rfl⟩

/-- Claim C4: each of the four list-returning methods, on a failed fetch with
the error translator configured to suppress (`throwOnError = false`), returns
the zero-valued paging envelope. -/
theorem c4_list_methods_zero_envelope (u : UserClient) :
    (UserClient.getTopTracks false u (.error ())).1
      = .ok { limit := 0, offset := 0, total := 0, items := [] } ∧
    (UserClient.getTopArtists false u (.error ())).1
      = .ok { limit := 0, offset := 0, total := 0, items := [] } ∧
    (UserClient.getFollowingArtists false u (.error ())).1
      = .ok { limit := 0, offset := 0, total := 0, items := [] } ∧
    (UserClient.getAlbums false u (.error ())).1
      = .ok { limit := 0, offset := 0, total := 0, items := [] } :=
  ⟨rfl, rfl, rfl, rfl⟩

/-- Claim C5 (counterexample): `info` on a failed fetch raises the typed
`UnexpectedError` without consulting the error translator or any
configuration (its catch clause rethrows unconditionally; the embedding of
`info` takes no configuration input because the source never reads one), so
the claim that no method raises unconditionally regardless of the
configuration is false. -/
theorem c5_counterexample :
    (UserClient.info UserClient.new (Except.error ())).1
      = Except.error SpotifyError.unexpectedError :=
  rfl

/-- Claim C5 (amended): every user-client method except `info` and
`followsPlaylist` catches a fetch failure locally and routes it through the
shared error translator, yielding the typed fallback when errors are
suppressed and the typed `UnexpectedError` when the configuration demands
raising; `info` catches locally but always raises `UnexpectedError`, and
`followsPlaylist` delegates to the playlists manager, propagating that
delegate's error unchanged. -/
theorem c5_error_policy (cfg : Bool) (u : UserClient) (id : String)
    (ids : List String) (opts : Option FollowPlaylistOptions) :
    ((UserClient.getTopTracks cfg u (.error ())).1
      = if cfg then .error .unexpectedError
        else .ok { limit := 0, offset := 0, total := 0, items := [] }) ∧
    ((UserClient.getTopArtists cfg u (.error ())).1
      = if cfg then .error .unexpectedError
        else .ok { limit := 0, offset := 0, total := 0, items := [] }) ∧
    ((UserClient.getFollowingArtists cfg u (.error ())).1
      = if cfg then .error .unexpectedError
        else .ok { limit := 0, offset := 0, total := 0, items := [] }) ∧
    ((UserClient.getAlbums cfg u (.error ())).1
      = if cfg then .error .unexpectedError
        else .ok { limit := 0, offset := 0, total := 0, items := [] }) ∧
    ((UserClient.followPlaylist cfg u id opts (.error ())).1
      = if cfg then .error .unexpectedError else .ok false) ∧
    ((UserClient.unfollowPlaylist cfg u id (.error ())).1
      = if cfg then .error .unexpectedError else .ok false) ∧
    ((UserClient.followArtists cfg u ids (.error ())).1
      = if cfg then .error .unexpectedError else .ok false) ∧
    ((UserClient.unfollowArtists cfg u ids (.error ())).1
      = if cfg then .error .unexpectedError else .ok false) ∧
    ((UserClient.followUsers cfg u ids (.error ())).1
      = if cfg then .error .unexpectedError else .ok false) ∧
    ((UserClient.unfollowUsers cfg u ids (.error ())).1
      = if cfg then .error .unexpectedError else .ok false) ∧
    ((UserClient.addAlbums cfg u ids (.error ())).1
      = if cfg then .error .unexpectedError else .ok false) ∧
    ((UserClient.deleteAlbums cfg u ids (.error ())).1
      = if cfg then .error .unexpectedError else .ok false) ∧
    ((UserClient.followsArtists cfg u ids (.error ())).1
      = if cfg then .error .unexpectedError else .ok []) ∧
    ((UserClient.followsUsers cfg u ids (.error ())).1
      = if cfg then .error .unexpectedError else .ok []) ∧
    ((UserClient.hasAlbums cfg u ids (.error ())).1
      = if cfg then .error .unexpectedError else .ok []) ∧
    ((UserClient.info u (.error ())).1 = .error .unexpectedError) ∧
    ((UserClient.followsPlaylist u id (.error .unexpectedError)).1
      = .error .unexpectedError) := by
  cases cfg <;>
    exact ⟨rfl, rfl, rfl, rfl, rfl, rfl, rfl, rfl, rfl, rfl, rfl, rfl, rfl,
           rfl, rfl, rfl, rfl⟩

/-- Claim C6: on the worked-example `GET /me` payload, `info` returns the
mutated client, whose `name` is `Alice`, `totalFollowers` is `5` and
`country` — absent from the payload — is defaulted to `unknown`. -/
theorem c6_info_example :
    (UserClient.info UserClient.new (.ok exMe)).1
      = .ok (UserClient.info UserClient.new (.ok exMe)).2 ∧
    (UserClient.info UserClient.new (.ok exMe)).2.name = "Alice" ∧
    (UserClient.info UserClient.new (.ok exMe)).2.totalFollowers = 5 ∧
    (UserClient.info UserClient.new (.ok exMe)).2.country = "unknown" :=
  ⟨rfl, rfl, rfl, rfl⟩

/-- Claim C7 (counterexample): `followsArtists` called with the non-empty id
list containing only `a`, when the fetch fails and errors are suppressed,
returns the empty boolean array, whose length differs from the length of the
id list — so the output length does not always equal the number of ids. -/
theorem c7_counterexample :
    (UserClient.followsArtists false UserClient.new ["a"] (Except.error ())).1
      = Except.ok ([] : List Bool) ∧
    ([] : List Bool).length ≠ (["a"] : List String).length :=
  ⟨rfl, by decide⟩

/-- Claim C7 (amended): the boolean-array methods return the decoded boolean
array of the HTTP layer unchanged — so length and order mirror the input ids
exactly when the layer answers with one boolean per id in input order — and
on a failed fetch with errors suppressed they return the empty array
regardless of how many ids were supplied. -/
theorem c7_bool_array_passthrough (cfg : Bool) (u : UserClient)
    (ids : List String) (bs : List Bool) :
    (UserClient.followsArtists cfg u ids (.ok bs)).1 = .ok bs ∧
    (UserClient.followsUsers cfg u ids (.ok bs)).1 = .ok bs ∧
    (UserClient.hasAlbums cfg u ids (.ok bs)).1 = .ok bs ∧
    (UserClient.followsArtists false u ids (.error ())).1 = .ok [] ∧
    (UserClient.followsUsers false u ids (.error ())).1 = .ok [] ∧
    (UserClient.hasAlbums false u ids (.error ())).1 = .ok [] :=
  ⟨rfl, rfl, rfl, rfl, rfl, rfl⟩

/-- Claim C8: the six artist/user following endpoints each build one request
whose query carries the ids joined by commas and a `type` discriminator:
`artist` for the artist variants, `user` for the user variants; the follow
variants are PUTs, the unfollow variants DELETEs and the contains variants
GETs, on the `/me/following` family of paths. -/
theorem c8_follow_requests (ids : List String) :
    joinComma ["a", "b"] = "a,b" ∧
    followArtists_request ids
      = { method := "PUT", path := "/me/following",
          params := [("type", "artist"), ("ids", joinComma ids)],
          body := none, headers := [] } ∧
    unfollowArtists_request ids
      = { method := "DELETE", path := "/me/following",
          params := [("type", "artist"), ("ids", joinComma ids)],
          body := none, headers := [] } ∧
    followsArtists_request ids
      = { method := "GET", path := "/me/following/contains",
          params := [("type", "artist"), ("ids", joinComma ids)],
          body := none, headers := [] } ∧
    followUsers_request ids
      = { method := "PUT", path := "/me/following",
          params := [("type", "user"), ("ids", joinComma ids)],
          body := none, headers := [] } ∧
    unfollowUsers_request ids
      = { method := "DELETE", path := "/me/following",
          params := [("type", "user"), ("ids", joinComma ids)],
          body := none, headers := [] } ∧
    followsUsers_request ids
      = { method := "GET", path := "/me/following/contains",
          params := [("type", "user"), ("ids", joinComma ids)],
          body := none, headers := [] } :=
  ⟨rfl, rfl, rfl, rfl, rfl, rfl, rfl⟩

/-- Claim C9: every user-client method other than `info` leaves the client's
profile fields unchanged, whatever the HTTP layer returned and whether it
failed; `info` itself does mutate them (on the example payload the cached
name changes from its default to `Alice`). -/
theorem c9_only_info_mutates (cfg : Bool) (u : UserClient) (id : String)
    (ids : List String) (opts : Option FollowPlaylistOptions)
    (rUnit : Except Unit Unit) (rBools : Except Unit (List Bool))
    (rPagRaw : Except Unit (Paging RawObject))
    (rPagArt : Except Unit (Paging RawArtist))
    (rFollows : Except SpotifyError (List Bool)) :
    ((UserClient.getTopTracks cfg u rPagRaw).2 = u ∧
     (UserClient.getTopArtists cfg u rPagArt).2 = u ∧
     (UserClient.followPlaylist cfg u id opts rUnit).2 = u ∧
     (UserClient.unfollowPlaylist cfg u id rUnit).2 = u ∧
     (UserClient.followsPlaylist u id rFollows).2 = u ∧
     (UserClient.getFollowingArtists cfg u rPagArt).2 = u ∧
     (UserClient.followArtists cfg u ids rUnit).2 = u ∧
     (UserClient.unfollowArtists cfg u ids rUnit).2 = u ∧
     (UserClient.followUsers cfg u ids rUnit).2 = u ∧
     (UserClient.unfollowUsers cfg u ids rUnit).2 = u ∧
     (UserClient.followsArtists cfg u ids rBools).2 = u ∧
     (UserClient.followsUsers cfg u ids rBools).2 = u ∧
     (UserClient.getAlbums cfg u rPagRaw).2 = u ∧
     (UserClient.addAlbums cfg u ids rUnit).2 = u ∧
     (UserClient.deleteAlbums cfg u ids rUnit).2 = u ∧
     (UserClient.hasAlbums cfg u ids rBools).2 = u) ∧
    ((UserClient.info UserClient.new (.ok exMe)).2.name = "Alice" ∧
     UserClient.new.name = "") :=
  ⟨⟨rfl, rfl, rfl, rfl, rfl, rfl, rfl, rfl, rfl, rfl, rfl, rfl, rfl, rfl,
    rfl, rfl⟩, rfl, rfl⟩

/-- Claim C10: immediately after construction the profile fields hold their
fixed defaults — name, country, uri, id and href empty, email and product
`unknown`, totalFollowers `0`, externalUrls empty object, images empty array
— and, asymmetrically, after a successful `info` whose payload lacks
`country` the cached country is `unknown`, not the constructor's empty
string. -/
theorem c10_constructor_defaults (d : MeData) (h : d.country = none) :
    (UserClient.new.name = "" ∧ UserClient.new.country = "" ∧
     UserClient.new.uri = "" ∧ UserClient.new.id = "" ∧
     UserClient.new.href = "" ∧ UserClient.new.email = "unknown" ∧
     UserClient.new.product = "unknown" ∧ UserClient.new.totalFollowers = 0 ∧
     UserClient.new.externalUrls = [] ∧ UserClient.new.images = []) ∧
    (UserClient.info UserClient.new (.ok d)).2.country = "unknown" := by
  refine ⟨⟨rfl, rfl, rfl, rfl, rfl, rfl, rfl, rfl, rfl, rfl⟩, ?_⟩
  simp [UserClient.info, jsOrStr, h]

/-- Witness for C10: the defaults theorem applied at the example payload,
which has no country. -/
theorem c10_witness :
    exMe.country = none ∧
    (UserClient.info UserClient.new (.ok exMe)).2.country = "unknown" :=
  ⟨rfl, (c10_constructor_defaults exMe rfl).2⟩
